import Mathlib

/-!
Shallow embedding of the animated-cursor effect engine of this repository:
the shared base behavior in src/cursor-effect.ts (lifecycle, scroll
reconciliation, deferred measure write phase, canvas resizing), the comet
effect variant (CometCursorPlugin, src/unnamed/part_001) and the blink
effect variant (BlinkCursorPlugin, second part of src/comet-cursor.ts).

Modelling conventions:
* Pixel coordinates, scroll offsets and opacities are exact rationals;
  the algorithms are modelled over exact arithmetic.
* `Math.hypot a b > c` comparisons with `c ≥ 0` are encoded as
  `a ^ 2 + b ^ 2 > c ^ 2`, which is equivalent over the exact reals;
  the square root itself is never needed by the state transitions except
  through such comparisons and through `Math.ceil(dist / 1)`, which is
  encoded exactly by `ceilSqrt` below.
* DOM side effects are represented by state fields: the overlay canvas is
  an `Option CanvasState` (`none` = not attached), CSS classes and event
  listeners are booleans.  Pure drawing calls (strokes, fills, shadow and
  alpha settings) mutate only the graphics context, never the plugin
  state, and are not modelled.
* The host environment (scroll offsets read from `scrollDOM`, the value
  returned by `requestAnimationFrame`, `Date.now()`, `devicePixelRatio`,
  the measure result produced by the read phase) enters as explicit
  function arguments.
-/

namespace AnimatedCursor

/-- Backing store and style state of the overlay canvas element.
`width`/`height` are the backing-store pixel dimensions (`canvas.width`,
`canvas.height`; HTML default 300 × 150).  `styleWidth`/`styleHeight` are
the CSS pixel lengths assigned by `resizeCanvas` (`none` until then: the
canvas is created with percentage styles, not pixel lengths).  `transform`
is the uniform scale set by `ctx.setTransform(dpr, 0, 0, dpr, 0, 0)`
(identity scale 1 initially). -/
structure CanvasState where
  width : ℤ
  height : ℤ
  styleWidth : Option ℚ
  styleHeight : Option ℚ
  transform : ℚ
deriving DecidableEq

/-- The fields of the abstract base class CursorEffectPlugin
(src/cursor-effect.ts lines 9–26), plus booleans for the DOM effects the
lifecycle methods perform on the editor view (CSS class, inline position
style, scroll listener). -/
structure EffectState where
  canvas : Option CanvasState
  ctx : Bool
  animationFrameId : ℕ
  measurePending : Bool
  needsResize : Bool
  initialized : Bool
  hasFocus : Bool
  targetX : ℚ
  targetY : ℚ
  currentX : ℚ
  currentY : ℚ
  currentHeight : ℚ
  lastScrollTop : ℚ
  lastScrollLeft : ℚ
  scrollListener : Bool
  effectClass : Bool
  domStylePosition : Bool
deriving DecidableEq

/-- Field initializers of CursorEffectPlugin together with the
constructor's reads of the host's scroll offsets
(src/cursor-effect.ts lines 28–31); the constructor's conditional
`enable()` call is applied separately. -/
def initialEffectState (scrollTop scrollLeft : ℚ) : EffectState :=
  { canvas := none, ctx := false, animationFrameId := 0,
    measurePending := false, needsResize := true,
    initialized := false, hasFocus := true,
    targetX := 0, targetY := 0, currentX := 0, currentY := 0,
    currentHeight := 0,
    lastScrollTop := scrollTop, lastScrollLeft := scrollLeft,
    scrollListener := false, effectClass := false,
    domStylePosition := false }

/-- Canvas element as `enable` creates it: HTML default backing size,
percentage styles (no pixel length recorded), identity transform. -/
def newCanvas : CanvasState :=
  { width := 300, height := 150, styleWidth := none, styleHeight := none,
    transform := 1 }

/-- CursorEffectPlugin.enable (src/cursor-effect.ts lines 68–93): early
return when a canvas already exists; otherwise add the effect CSS class,
force a relative position style, attach a fresh canvas and its drawing
context, register the scroll listener, request a measure
(`scheduleMeasure` sets `measurePending`) and start the frame loop with
the id returned by `requestAnimationFrame`. -/
def enable (s : EffectState) (frameId : ℕ) : EffectState :=
  if s.canvas.isSome then s
  else
    { s with
      effectClass := true, domStylePosition := true,
      canvas := some newCanvas, ctx := true,
      scrollListener := true, measurePending := true,
      animationFrameId := frameId }

/-- CursorEffectPlugin.disable (src/cursor-effect.ts lines 95–107):
cancel the frame request if one is pending, then detach listener, canvas
and context if the canvas exists, then remove the effect CSS class. -/
def disable (s : EffectState) : EffectState :=
  let s1 := if s.animationFrameId ≠ 0 then { s with animationFrameId := 0 } else s
  let s2 :=
    if s1.canvas.isSome then
      { s1 with scrollListener := false, canvas := none, ctx := false }
    else s1
  { s2 with effectClass := false }

/-- CursorEffectPlugin.onScroll without the subclass hook
(src/cursor-effect.ts lines 112–126): read the new scroll offsets,
compute the deltas against the recorded baseline, update the baseline and
subtract the deltas from both current and target.  The guard
`if (!this.initialized) return` and the `onScrollChange(dx, dy)` hook are
modelled in the per-effect wrappers `cometOnScroll` / `blinkOnScroll`. -/
def onScroll (s : EffectState) (scrollTop scrollLeft : ℚ) : EffectState :=
  let dy := scrollTop - s.lastScrollTop
  let dx := scrollLeft - s.lastScrollLeft
  { s with
    lastScrollTop := scrollTop, lastScrollLeft := scrollLeft,
    currentX := s.currentX - dx, currentY := s.currentY - dy,
    targetX := s.targetX - dx, targetY := s.targetY - dy }

/-- Bounding rectangle as used by the write phase (only width and height
are consumed there; left/top are consumed by the read phase when it
translates caret coordinates). -/
structure Rect where
  width : ℚ
  height : ℚ
deriving DecidableEq

/-- Caret coordinates produced by the read phase. -/
structure Coords where
  x : ℚ
  y : ℚ
  height : ℚ
deriving DecidableEq

/-- Result of the measure read phase (src/cursor-effect.ts lines 141–162):
the read phase runs against the live DOM and is modelled as an opaque
producer of this record. -/
structure Measure where
  rect : Option Rect
  coords : Option Coords
  hasFocus : Bool
deriving DecidableEq

/-- CursorEffectPlugin.resizeCanvas acting on an attached canvas
(src/cursor-effect.ts lines 189–201): compute the device-pixel-ratio
scaled backing dimensions (floored, at least 1); return unchanged when
they already match, otherwise set backing dimensions, CSS pixel styles
and the uniform scale transform. -/
def resizeCanvas (c : CanvasState) (rectWidth rectHeight dpr : ℚ) : CanvasState :=
  let width := max 1 ⌊rectWidth * dpr⌋
  let height := max 1 ⌊rectHeight * dpr⌋
  if c.width = width ∧ c.height = height then c
  else
    { width := width, height := height,
      styleWidth := some rectWidth, styleHeight := some rectHeight,
      transform := dpr }

/-- The `if (!this.canvas) return` guard of resizeCanvas. -/
def resizeCanvasOpt (c : Option CanvasState) (rectWidth rectHeight dpr : ℚ) :
    Option CanvasState :=
  c.map (fun cs => resizeCanvas cs rectWidth rectHeight dpr)

/-- Write phase of scheduleMeasure (src/cursor-effect.ts lines 164–185):
clear the pending flag, record focus; if a rectangle was sampled, resize
the canvas and clear the resize flag; if caret coordinates were sampled,
update target and height, and on the very first such sample hard-set
current to target, latch the initialization flag and re-record the host's
scroll offsets as the scroll-delta baseline. -/
def writePhase (s : EffectState) (m : Measure) (dpr scrollTop scrollLeft : ℚ) :
    EffectState :=
  let s1 := { s with measurePending := false, hasFocus := m.hasFocus }
  let s2 :=
    match m.rect with
    | some r =>
        { s1 with
          canvas := resizeCanvasOpt s1.canvas r.width r.height dpr,
          needsResize := false }
    | none => s1
  match m.coords with
  | some c =>
      let s3 := { s2 with targetX := c.x, targetY := c.y, currentHeight := c.height }
      if s3.initialized then s3
      else
        { s3 with
          currentX := s3.targetX, currentY := s3.targetY,
          initialized := true,
          lastScrollTop := scrollTop, lastScrollLeft := scrollLeft }
  | none => s2

/-- Squared Euclidean distance between current and target.  The source
computes `Math.hypot(targetX - currentX, targetY - currentY)`
(the Motion Model's distanceToTarget); comparisons `dist > c` with
`c ≥ 0` are encoded against this squared quantity as `distSq > c ^ 2`. -/
def distSqState (s : EffectState) : ℚ :=
  (s.targetX - s.currentX) ^ 2 + (s.targetY - s.currentY) ^ 2

/-! ## Comet effect variant (CometCursorPlugin, src/unnamed/part_001) -/

/-- Comet configuration record (src/unnamed/part_001 lines 7–20). -/
structure CometConfig where
  enabled : Bool
  color : String
  width : ℚ
  tailLength : ℕ
  smoothness : ℚ
deriving DecidableEq

/-- Module-level default comet configuration. -/
def defaultCometConfig : CometConfig :=
  { enabled := true, color := "#00e5ff", width := 2, tailLength := 12,
    smoothness := 1/5 }

/-- One buffered comet trail point. -/
structure TrailPoint where
  x : ℚ
  y : ℚ
deriving DecidableEq

/-- CometCursorPlugin state: the inherited base fields plus the trail
buffer (oldest point first; `push` appends, `shift` drops the head). -/
structure CometState where
  base : EffectState
  trail : List TrailPoint
deriving DecidableEq

/-- CometCursorPlugin.lerp (src/unnamed/part_001 lines 53–55). -/
def lerp (start e amt : ℚ) : ℚ :=
  (1 - amt) * start + amt * e

/-- One axis of the comet smoothing step
(src/unnamed/part_001 lines 58–62): snap when the gap is below 0.1,
otherwise interpolate with the configured smoothness. -/
def axisStep (current target k : ℚ) : ℚ :=
  if |target - current| < 1/10 then target
  else lerp current target k

/-- The two per-axis smoothing assignments at the top of
CometCursorPlugin.render. -/
def cometAdvance (cfg : CometConfig) (s : EffectState) : EffectState :=
  { s with
    currentX := axisStep s.currentX s.targetX cfg.smoothness,
    currentY := axisStep s.currentY s.targetY cfg.smoothness }

/-- CometCursorPlugin.onScrollChange (src/unnamed/part_001 lines 46–51):
subtract the scroll delta from every buffered trail point. -/
def cometOnScrollChange (trail : List TrailPoint) (dx dy : ℚ) : List TrailPoint :=
  trail.map (fun p => { x := p.x - dx, y := p.y - dy })

/-- Full scroll handler for the comet effect: the base class onScroll
(with its not-initialized early return) followed by the subclass hook. -/
def cometOnScroll (s : CometState) (scrollTop scrollLeft : ℚ) : CometState :=
  if !s.base.initialized then s
  else
    let dy := scrollTop - s.base.lastScrollTop
    let dx := scrollLeft - s.base.lastScrollLeft
    { base := onScroll s.base scrollTop scrollLeft,
      trail := cometOnScrollChange s.trail dx dy }

/-- CometCursorPlugin.render state transition
(src/unnamed/part_001 lines 57–76): advance both axes, classify motion by
`Math.hypot(targetX - currentX, targetY - currentY) > 0.2` (encoded on
squares), and either append the new current position to the trail —
dropping the oldest point when the buffer would exceed `tailLength` — or
clear the trail entirely.  The drawTrail/drawHead calls issue only
graphics operations and are omitted. -/
def cometRender (cfg : CometConfig) (s : CometState) : CometState :=
  let b := cometAdvance cfg s.base
  let isMoving := (1/5 : ℚ) ^ 2 < distSqState b
  let trail :=
    if isMoving then
      let t := s.trail ++ [{ x := b.currentX, y := b.currentY }]
      if cfg.tailLength < t.length then t.drop 1 else t
    else []
  { base := b, trail := trail }

/-! ## Blink effect variant (BlinkCursorPlugin, src/src/comet-cursor.ts,
second document) -/

/-- One ghost afterimage entry (src/src/comet-cursor.ts lines 244–249). -/
structure Ghost where
  x : ℚ
  y : ℚ
  height : ℚ
  opacity : ℚ
deriving DecidableEq

/-- BlinkCursorPlugin state: inherited base fields plus the activity
timestamp (ms), the ghost buffer and the last ghost-spawn anchor. -/
structure BlinkState where
  base : EffectState
  lastActivityTime : ℕ
  ghosts : List Ghost
  lastX : ℚ
  lastY : ℚ
deriving DecidableEq

/-- Standard caret blink half-cycle, ms
(src/src/comet-cursor.ts line 253). -/
def blinkInterval : ℕ := 530

/-- The local lerp inside BlinkCursorPlugin.render
(src/src/comet-cursor.ts lines 301–303): start + (end − start)·factor. -/
def blinkLerp (start e factor : ℚ) : ℚ :=
  start + (e - start) * factor

/-- The two unconditional smoothing assignments at the top of
BlinkCursorPlugin.render (lines 304–305); note there is no snap branch
here, unlike the comet variant. -/
def blinkSmooth (s : BlinkState) : BlinkState :=
  { s with base :=
      { s.base with
        currentX := blinkLerp s.base.currentX s.base.targetX (1/4),
        currentY := blinkLerp s.base.currentY s.base.targetY (1/4) } }

/-- JavaScript `h || d` for numbers, as used in `this.currentHeight || 20`:
0 is falsy. -/
def orDefault (h d : ℚ) : ℚ :=
  if h = 0 then d else h

/-- Least natural number whose square is at least `c`. -/
def ceilSqrtNat (c : ℕ) : ℕ :=
  if Nat.sqrt c * Nat.sqrt c = c then Nat.sqrt c else Nat.sqrt c + 1

/-- `Math.ceil` of the square root of a nonnegative rational, computed
exactly: for an integer n, n ≥ √q iff n² ≥ q iff n² ≥ ⌈q⌉, so the ceiling
of √q is the least n with n² ≥ ⌈q⌉.  This encodes
`Math.ceil(Math.hypot dx dy / spawnInterval)` with spawnInterval = 1,
applied to q = dx² + dy². -/
def ceilSqrt (q : ℚ) : ℕ :=
  ceilSqrtNat (Int.toNat ⌈q⌉)

/-- The ghost entries pushed by one spawning pass
(src/src/comet-cursor.ts lines 316–328): for i = 1..steps, place a ghost
at the fraction i/steps along the displacement, carrying the caret height
(defaulted to 20) and the fixed initial opacity 0.4. -/
def spawnGhosts (lastX lastY dx dy h : ℚ) (steps : ℕ) : List Ghost :=
  (List.range steps).map (fun i =>
    { x := lastX + dx * (((i : ℚ) + 1) / (steps : ℚ)),
      y := lastY + dy * (((i : ℚ) + 1) / (steps : ℚ)),
      height := h, opacity := 2/5 })

/-- Ghost spawning section of BlinkCursorPlugin.render (lines 307–331):
when the displacement since the last spawn anchor exceeds the 1px spawn
interval (`dist > 1`, encoded on squares), append one ghost per unit step
and move the anchor to the current position. -/
def blinkSpawnStep (s : BlinkState) : BlinkState :=
  let dx := s.base.currentX - s.lastX
  let dy := s.base.currentY - s.lastY
  if 1 < dx ^ 2 + dy ^ 2 then
    { s with
      ghosts := s.ghosts ++
        spawnGhosts s.lastX s.lastY dx dy (orDefault s.base.currentHeight 20)
          (ceilSqrt (dx ^ 2 + dy ^ 2)),
      lastX := s.base.currentX, lastY := s.base.currentY }
  else s

/-- Ghost fade-and-cull pass (lines 336–347): every ghost's opacity drops
by 0.03, and ghosts whose opacity reaches 0 or below are removed (the
source iterates backwards and splices, which preserves the relative order
of survivors, as filterMap does). -/
def fadeGhosts (gs : List Ghost) : List Ghost :=
  gs.filterMap (fun g =>
    if g.opacity - 3/100 ≤ 0 then none
    else some { g with opacity := g.opacity - 3/100 })

/-- Ghost rendering section of BlinkCursorPlugin.render as a state
transition (the fillRect calls are pure drawing). -/
def blinkFadeStep (s : BlinkState) : BlinkState :=
  { s with ghosts := fadeGhosts s.ghosts }

/-- Main-caret opacity selection (lines 350–361): fixed 0.6 while the
idle time is at most 500ms; beyond that, 0 during the hidden half of the
wall-clock-locked blink cycle (`now % 1060 > 530`) and 0.6 otherwise. -/
def blinkMainOpacity (now lastActivityTime : ℕ) : ℚ :=
  if 500 < now - lastActivityTime then
    if blinkInterval < now % (blinkInterval * 2) then 0 else 3/5
  else 3/5

/-- Full BlinkCursorPlugin.render state transition
(src/src/comet-cursor.ts lines 299–369), returning the new state and the
opacity at which the main caret is drawn this tick (the caret rectangle
itself is drawn only when that opacity is positive). -/
def blinkRender (s : BlinkState) (now : ℕ) : BlinkState × ℚ :=
  let s3 := blinkFadeStep (blinkSpawnStep (blinkSmooth s))
  (s3, blinkMainOpacity now s.lastActivityTime)

/-- BlinkCursorPlugin.onScrollChange (lines 290–297): shift every ghost
and the spawn anchor by the scroll delta. -/
def blinkOnScrollChange (s : BlinkState) (dx dy : ℚ) : BlinkState :=
  { s with
    ghosts := s.ghosts.map (fun g => { g with x := g.x - dx, y := g.y - dy }),
    lastX := s.lastX - dx, lastY := s.lastY - dy }

/-- Full scroll handler for the blink effect: base class onScroll (with
its not-initialized early return) followed by the subclass hook. -/
def blinkOnScroll (s : BlinkState) (scrollTop scrollLeft : ℚ) : BlinkState :=
  if !s.base.initialized then s
  else
    let dy := scrollTop - s.base.lastScrollTop
    let dx := scrollLeft - s.base.lastScrollLeft
    { blinkOnScrollChange s dx dy with base := onScroll s.base scrollTop scrollLeft }

/-- BlinkCursorPlugin.onViewUpdate (lines 280–288): document or selection
changes reset the activity timestamp (the forced immediate render call is
the same `render` transition). -/
def blinkOnViewUpdate (s : BlinkState) (docChanged selectionSet : Bool) (now : ℕ) :
    BlinkState :=
  if docChanged || selectionSet then { s with lastActivityTime := now } else s

/-! ## Concrete states used by counterexamples and witnesses -/

/-- An initialized blink state whose x-gap is 0.05 < 0.1. -/
def exBlinkC1 : BlinkState :=
  { base := { initialEffectState 0 0 with
      initialized := true,
      targetX := 1/20 },
    lastActivityTime := 0, ghosts := [], lastX := 0, lastY := 0 }

/-- An initialized comet state: x-gap 0.05 (snap case), y-gap 1 (lerp case). -/
def exCometC1 : CometState :=
  { base := { initialEffectState 0 0 with
      initialized := true,
      targetX := 1/20,
      targetY := 1 },
    trail := [] }

/-- Initialized comet state with a nonempty trail, for the scroll claim. -/
def exCometC2 : CometState :=
  { base := { initialEffectState 0 0 with
      initialized := true,
      targetX := 3, targetY := 4, currentX := 1, currentY := 2 },
    trail := [{ x := 5, y := 6 }] }

/-- Initialized blink state with one ghost, for the scroll claim. -/
def exBlinkC2 : BlinkState :=
  { base := { initialEffectState 0 0 with
      initialized := true,
      targetX := 3, targetY := 4, currentX := 1, currentY := 2 },
    lastActivityTime := 0, ghosts := [{ x := 7, y := 8, height := 20, opacity := 2/5 }],
    lastX := 1, lastY := 2 }

/-- The measure of the spec's initialization scenario: target (100, 50),
height 20, with a sampled rectangle. -/
def exMeasureC3 : Measure :=
  { rect := some { width := 200, height := 100 },
    coords := some { x := 100, y := 50, height := 20 },
    hasFocus := true }

/-- A measure with no caret coordinates (caret off-screen). -/
def exMeasureC8 : Measure :=
  { rect := some { width := 200, height := 100 },
    coords := none,
    hasFocus := false }

/-- A comet state one push away from a full trail, with a far target. -/
def exCometC4 : CometState :=
  { base := { initialEffectState 0 0 with
      initialized := true,
      targetX := 100 },
    trail := [] }

/-- A blink state with one fresh ghost and no pending motion. -/
def exBlinkC5 : BlinkState :=
  { base := { initialEffectState 0 0 with initialized := true },
    lastActivityTime := 0, ghosts := [{ x := 0, y := 0, height := 20, opacity := 2/5 }],
    lastX := 0, lastY := 0 }

/-- A blink state idle since time 0 (used at now = 600). -/
def exBlinkC6 : BlinkState :=
  { base := { initialEffectState 0 0 with initialized := true },
    lastActivityTime := 0, ghosts := [], lastX := 0, lastY := 0 }

/-- An enabled base state. -/
def exEnabledC7 : EffectState :=
  enable (initialEffectState 0 0) 1

/-- An uninitialized comet state with pre-initialization scroll baseline
and a buffered point, for the pre-initialization scroll claim. -/
def exCometC10 : CometState :=
  { base := { initialEffectState 40 30 with
      targetX := 3,
      targetY := 4 },
    trail := [{ x := 5, y := 6 }] }

/-- An uninitialized blink state for the pre-initialization scroll claim. -/
def exBlinkC10 : BlinkState :=
  { base := initialEffectState 40 30,
    lastActivityTime := 0, ghosts := [{ x := 7, y := 8, height := 20, opacity := 2/5 }],
    lastX := 1, lastY := 2 }

/-! ## Helper lemmas -/

/-- Neither the spawning pass nor the fade pass touches the inherited base
fields. -/
lemma blinkSpawnStep_base (s : BlinkState) : (blinkSpawnStep s).base = s.base := by
  rw [blinkSpawnStep]
  split <;> rfl

lemma blinkFadeStep_base (s : BlinkState) : (blinkFadeStep s).base = s.base := rfl

/-- Every survivor of the fade pass has positive opacity and stems from a
buffered ghost at the same position and height with opacity exactly 0.03
higher. -/
lemma mem_fadeGhosts {g : Ghost} {l : List Ghost} (h : g ∈ fadeGhosts l) :
    0 < g.opacity ∧ ∃ g0 ∈ l, g.x = g0.x ∧ g.y = g0.y ∧ g.height = g0.height ∧
      g.opacity = g0.opacity - 3/100 := by
  rw [fadeGhosts, List.mem_filterMap] at h
  obtain ⟨g0, hg0, hf⟩ := h
  by_cases hle : g0.opacity - 3/100 ≤ 0
  · simp [hle] at hf
  · rw [if_neg hle] at hf
    obtain rfl := Option.some.inj hf
    exact ⟨lt_of_not_le hle, g0, hg0, rfl, rfl, rfl, rfl⟩

/-- Every freshly spawned ghost carries the fixed initial opacity 0.4. -/
lemma mem_spawnGhosts {g : Ghost} {lx ly dx dy h : ℚ} {steps : ℕ}
    (hm : g ∈ spawnGhosts lx ly dx dy h steps) : g.opacity = 2/5 := by
  rw [spawnGhosts, List.mem_map] at hm
  obtain ⟨i, _, rfl⟩ := hm
  rfl

/-- One comet render tick keeps the trail within the configured bound. -/
lemma cometRender_trail_length (cfg : CometConfig) (s : CometState)
    (h : s.trail.length ≤ cfg.tailLength) :
    (cometRender cfg s).trail.length ≤ cfg.tailLength := by
  simp only [cometRender]
  split
  · split
    · simp only [List.length_drop, List.length_append, List.length_singleton]
      omega
    · next hlen => omega
  · simp

/-- A state whose frame request, canvas and CSS class are already cleared
is a fixed point of disable. -/
lemma disable_fixed (t : EffectState) (h0 : t.animationFrameId = 0)
    (hc : t.canvas = none) (he : t.effectClass = false) : disable t = t := by
  cases t
  simp_all [disable]

lemma disable_animationFrameId (s : EffectState) : (disable s).animationFrameId = 0 := by
  rw [disable]
  split <;> split <;> simp_all

lemma disable_canvas (s : EffectState) : (disable s).canvas = none := by
  rw [disable]
  split <;> split <;> simp_all [Option.not_isSome_iff_eq_none]

lemma disable_effectClass (s : EffectState) : (disable s).effectClass = false := by
  rw [disable]

/-- After enable a canvas is attached, whether or not one already was. -/
lemma enable_canvas_isSome (s : EffectState) (f : ℕ) :
    (enable s f).canvas.isSome = true := by
  rw [enable]
  split <;> simp_all [newCanvas]

/-! ## Claims -/

/-- C1, counterexample: the blink effect's smoothing step does not snap.
With current = 0 and target = 0.05 the gap is below 0.1, yet one blink
render tick moves current to 0.0125, not to the target: the claim's snap
invariant fails for the blink effect variant. -/
theorem C1_blink_no_snap :
    |exBlinkC1.base.targetX - exBlinkC1.base.currentX| < 1/10 ∧
    (blinkRender exBlinkC1 600).1.base.currentX ≠ exBlinkC1.base.targetX := by
  constructor
  · norm_num [exBlinkC1, initialEffectState, abs_lt]
  · rw [blinkRender]
    simp only [blinkFadeStep_base, blinkSpawnStep_base]
    norm_num [blinkSmooth, blinkLerp, exBlinkC1, initialEffectState]

/-- C1, amended: the snap invariant holds for the comet effect variant —
per axis, a gap below 0.1 snaps current to target and otherwise current
becomes current·(1−k) + target·k for the configured smoothness k — while
the blink effect variant updates each axis by the unconditional
interpolation current·(1−0.25) + target·0.25 on every render tick and
performs no snap. -/
theorem C1_smoothing_step (cfg : CometConfig) (s : CometState) (b : BlinkState)
    (now : ℕ) :
    (|s.base.targetX - s.base.currentX| < 1/10 →
      (cometRender cfg s).base.currentX = s.base.targetX) ∧
    (¬ |s.base.targetX - s.base.currentX| < 1/10 →
      (cometRender cfg s).base.currentX
        = s.base.currentX * (1 - cfg.smoothness) + s.base.targetX * cfg.smoothness) ∧
    (|s.base.targetY - s.base.currentY| < 1/10 →
      (cometRender cfg s).base.currentY = s.base.targetY) ∧
    (¬ |s.base.targetY - s.base.currentY| < 1/10 →
      (cometRender cfg s).base.currentY
        = s.base.currentY * (1 - cfg.smoothness) + s.base.targetY * cfg.smoothness) ∧
    (blinkRender b now).1.base.currentX
      = b.base.currentX * (1 - 1/4) + b.base.targetX * (1/4) ∧
    (blinkRender b now).1.base.currentY
      = b.base.currentY * (1 - 1/4) + b.base.targetY * (1/4) := by
  refine ⟨fun h => ?_, fun h => ?_, fun h => ?_, fun h => ?_, ?_, ?_⟩
  · simp only [cometRender, cometAdvance]
    rw [axisStep, if_pos h]
  · simp only [cometRender, cometAdvance]
    rw [axisStep, if_neg h, lerp]
    ring
  · simp only [cometRender, cometAdvance]
    rw [axisStep, if_pos h]
  · simp only [cometRender, cometAdvance]
    rw [axisStep, if_neg h, lerp]
    ring
  · rw [blinkRender]
    simp only [blinkFadeStep_base, blinkSpawnStep_base, blinkSmooth, blinkLerp]
    ring
  · rw [blinkRender]
    simp only [blinkFadeStep_base, blinkSpawnStep_base, blinkSmooth, blinkLerp]
    ring

/-- C1, witness for the amended theorem at concrete states: the comet
step snaps on the x axis (gap 0.05) and interpolates on the y axis
(gap 1), and the blink step interpolates with factor 0.25. -/
theorem C1_smoothing_step_witness :
    (cometRender defaultCometConfig exCometC1).base.currentX
      = exCometC1.base.targetX ∧
    (cometRender defaultCometConfig exCometC1).base.currentY
      = exCometC1.base.currentY * (1 - defaultCometConfig.smoothness)
        + exCometC1.base.targetY * defaultCometConfig.smoothness ∧
    (blinkRender exBlinkC1 600).1.base.currentX
      = exBlinkC1.base.currentX * (1 - 1/4) + exBlinkC1.base.targetX * (1/4) := by
  obtain ⟨h1, _, _, h4, h5, _⟩ :=
    C1_smoothing_step defaultCometConfig exCometC1 exBlinkC1 600
  exact ⟨h1 (by norm_num [exCometC1, initialEffectState, abs_lt]),
    h4 (by norm_num [exCometC1, initialEffectState, abs_lt]), h5⟩

/-- C2: a scroll applied after initialization subtracts the delta
(dx, dy) = (scrollLeft − lastScrollLeft, scrollTop − lastScrollTop)
simultaneously from target and current in both effect variants, leaves
the (squared) distance to target unchanged, and subtracts the same delta
from every buffered trail point (comet) and every buffered ghost and the
spawn anchor (blink). -/
theorem C2_scroll_cancellation (s : CometState) (b : BlinkState) (st sl : ℚ)
    (hs : s.base.initialized = true) (hb : b.base.initialized = true) :
    ((cometOnScroll s st sl).base.targetX
        = s.base.targetX - (sl - s.base.lastScrollLeft) ∧
      (cometOnScroll s st sl).base.targetY
        = s.base.targetY - (st - s.base.lastScrollTop) ∧
      (cometOnScroll s st sl).base.currentX
        = s.base.currentX - (sl - s.base.lastScrollLeft) ∧
      (cometOnScroll s st sl).base.currentY
        = s.base.currentY - (st - s.base.lastScrollTop) ∧
      distSqState (cometOnScroll s st sl).base = distSqState s.base ∧
      (cometOnScroll s st sl).trail
        = s.trail.map (fun p =>
            { x := p.x - (sl - s.base.lastScrollLeft),
              y := p.y - (st - s.base.lastScrollTop) })) ∧
    ((blinkOnScroll b st sl).base.targetX
        = b.base.targetX - (sl - b.base.lastScrollLeft) ∧
      (blinkOnScroll b st sl).base.targetY
        = b.base.targetY - (st - b.base.lastScrollTop) ∧
      (blinkOnScroll b st sl).base.currentX
        = b.base.currentX - (sl - b.base.lastScrollLeft) ∧
      (blinkOnScroll b st sl).base.currentY
        = b.base.currentY - (st - b.base.lastScrollTop) ∧
      distSqState (blinkOnScroll b st sl).base = distSqState b.base ∧
      (blinkOnScroll b st sl).ghosts
        = b.ghosts.map (fun g =>
            { g with x := g.x - (sl - b.base.lastScrollLeft),
                     y := g.y - (st - b.base.lastScrollTop) }) ∧
      (blinkOnScroll b st sl).lastX = b.lastX - (sl - b.base.lastScrollLeft) ∧
      (blinkOnScroll b st sl).lastY = b.lastY - (st - b.base.lastScrollTop)) := by
  constructor
  · refine ⟨?_, ?_, ?_, ?_, ?_, ?_⟩ <;>
      simp [cometOnScroll, hs, onScroll, cometOnScrollChange, distSqState]
  · refine ⟨?_, ?_, ?_, ?_, ?_, ?_, ?_, ?_⟩ <;>
      simp [blinkOnScroll, hb, onScroll, blinkOnScrollChange, distSqState]

/-- C2, witness at concrete initialized states with baseline (0, 0),
scrolled to offsets (10, 20). -/
theorem C2_scroll_cancellation_witness :
    (cometOnScroll exCometC2 10 20).base.targetX
      = exCometC2.base.targetX - (20 - exCometC2.base.lastScrollLeft) ∧
    distSqState (cometOnScroll exCometC2 10 20).base = distSqState exCometC2.base ∧
    (blinkOnScroll exBlinkC2 10 20).ghosts
      = exBlinkC2.ghosts.map (fun g =>
          { g with x := g.x - (20 - exBlinkC2.base.lastScrollLeft),
                   y := g.y - (10 - exBlinkC2.base.lastScrollTop) }) := by
  obtain ⟨⟨h1, _, _, _, h5, _⟩, ⟨_, _, _, _, _, h6, _, _⟩⟩ :=
    C2_scroll_cancellation exCometC2 exBlinkC2 10 20 rfl rfl
  exact ⟨h1, h5, h6⟩

/-- C3: on a successful caret sample the write phase behaves as a
one-shot initialization snap.  When the initialization flag is still
unset, target, current and height all take the sampled values, the flag
latches, and the host's scroll offsets become the new scroll-delta
baseline; when the flag is already set, target and height update while
current, the flag and the baseline stay untouched. -/
theorem C3_initialization_snap (s : EffectState) (m : Measure) (c : Coords)
    (dpr st sl : ℚ) (hc : m.coords = some c) :
    (s.initialized = false →
      (writePhase s m dpr st sl).currentX = c.x ∧
      (writePhase s m dpr st sl).currentY = c.y ∧
      (writePhase s m dpr st sl).targetX = c.x ∧
      (writePhase s m dpr st sl).targetY = c.y ∧
      (writePhase s m dpr st sl).currentHeight = c.height ∧
      (writePhase s m dpr st sl).initialized = true ∧
      (writePhase s m dpr st sl).lastScrollTop = st ∧
      (writePhase s m dpr st sl).lastScrollLeft = sl) ∧
    (s.initialized = true →
      (writePhase s m dpr st sl).targetX = c.x ∧
      (writePhase s m dpr st sl).targetY = c.y ∧
      (writePhase s m dpr st sl).currentHeight = c.height ∧
      (writePhase s m dpr st sl).currentX = s.currentX ∧
      (writePhase s m dpr st sl).currentY = s.currentY ∧
      (writePhase s m dpr st sl).initialized = true ∧
      (writePhase s m dpr st sl).lastScrollTop = s.lastScrollTop ∧
      (writePhase s m dpr st sl).lastScrollLeft = s.lastScrollLeft) := by
  constructor <;> intro h <;>
    rcases hr : m.rect with _ | r <;>
      simp [writePhase, hc, hr, h]

/-- C3, witness: the spec's initialization scenario — first sample
(100, 50, height 20) from a fresh uninitialized state snaps current to
(100, 50) exactly and records the scroll baseline (7, 9). -/
theorem C3_initialization_snap_witness :
    (writePhase (initialEffectState 0 0) exMeasureC3 2 7 9).currentX = 100 ∧
    (writePhase (initialEffectState 0 0) exMeasureC3 2 7 9).currentY = 50 ∧
    (writePhase (initialEffectState 0 0) exMeasureC3 2 7 9).initialized = true ∧
    (writePhase (initialEffectState 0 0) exMeasureC3 2 7 9).lastScrollTop = 7 ∧
    (writePhase (initialEffectState 0 0) exMeasureC3 2 7 9).lastScrollLeft = 9 := by
  obtain ⟨h1, h2, _, _, _, h6, h7, h8⟩ :=
    (C3_initialization_snap (initialEffectState 0 0) exMeasureC3
      { x := 100, y := 50, height := 20 } 2 7 9 rfl).1 rfl
  exact ⟨h1, h2, h6, h7, h8⟩

/-- C4: starting from any trail within the configured bound, the comet
trail never exceeds tailLength across any number of render ticks; a tick
whose post-advance distance to target is at or below the 0.2 threshold
leaves the trail exactly empty; and a moving tick on a full trail drops
the oldest point while appending the new position. -/
theorem C4_comet_trail_bound (cfg : CometConfig) (s : CometState)
    (h : s.trail.length ≤ cfg.tailLength) :
    (∀ n : ℕ, ((cometRender cfg)^[n] s).trail.length ≤ cfg.tailLength) ∧
    (distSqState (cometAdvance cfg s.base) ≤ (1/5) ^ 2 →
      (cometRender cfg s).trail = []) ∧
    (s.trail ≠ [] → s.trail.length = cfg.tailLength →
      (1/5) ^ 2 < distSqState (cometAdvance cfg s.base) →
      (cometRender cfg s).trail
        = s.trail.tail ++
          [{ x := (cometAdvance cfg s.base).currentX,
             y := (cometAdvance cfg s.base).currentY }]) := by
  refine ⟨?_, ?_, ?_⟩
  · intro n
    induction n with
    | zero => simpa using h
    | succ k ih =>
        rw [Function.iterate_succ_apply']
        exact cometRender_trail_length cfg _ ih
  · intro hd
    simp only [cometRender]
    rw [if_neg (not_lt.mpr hd)]
  · intro hne hfull hd
    have hlen : cfg.tailLength <
        (s.trail ++ [({ x := (cometAdvance cfg s.base).currentX,
                        y := (cometAdvance cfg s.base).currentY } : TrailPoint)]).length := by
      simp [hfull]
    simp only [cometRender, if_pos hd, if_pos hlen]
    rw [List.drop_append_of_le_length (by
      simpa using Nat.one_le_iff_ne_zero.mpr (by simpa [List.length_eq_zero] using hne))]
    simp [List.drop_one]

/-- C4, witness: from an empty trail with a far target, one tick keeps
the trail within the bound, and the clearing branch applies once the
distance condition holds. -/
theorem C4_comet_trail_bound_witness :
    ((cometRender defaultCometConfig)^[20] exCometC4).trail.length
      ≤ defaultCometConfig.tailLength :=
  (C4_comet_trail_bound defaultCometConfig exCometC4 (by norm_num [exCometC4])).1 20

/-- C5: after any blink render tick, every ghost still buffered has
strictly positive opacity, and each stems from a ghost of the pre-fade
buffer (prior ghosts plus this tick's spawns, the latter at the fixed
initial opacity 0.4) at the same position and height with opacity lowered
by exactly the fade rate 0.03 — so each ghost's opacity strictly
decreases every tick from 0.4 until removal. -/
theorem C5_ghost_fade (s : BlinkState) (now : ℕ) :
    (∀ g ∈ (blinkRender s now).1.ghosts,
      0 < g.opacity ∧
      ∃ g0 ∈ (blinkSpawnStep (blinkSmooth s)).ghosts,
        g.x = g0.x ∧ g.y = g0.y ∧ g.height = g0.height ∧
        g.opacity = g0.opacity - 3/100) ∧
    (∀ g ∈ (blinkSpawnStep (blinkSmooth s)).ghosts,
      g ∈ s.ghosts ∨ g.opacity = 2/5) := by
  constructor
  · intro g hg
    exact mem_fadeGhosts hg
  · intro g hg
    rw [blinkSpawnStep] at hg
    split at hg
    · simp only [List.mem_append] at hg
      rcases hg with hg | hg
      · exact Or.inl (by simpa [blinkSmooth] using hg)
      · exact Or.inr (mem_spawnGhosts hg)
    · exact Or.inl (by simpa [blinkSmooth] using hg)

/-- C5, witness: a single buffered ghost of opacity 0.4 survives one tick
at opacity 0.37 > 0, traced back to its pre-fade original. -/
theorem C5_ghost_fade_witness :
    0 < (Ghost.mk 0 0 20 (37/100)).opacity ∧
    ∃ g0 ∈ (blinkSpawnStep (blinkSmooth exBlinkC5)).ghosts,
      (Ghost.mk 0 0 20 (37/100)).x = g0.x ∧
      (Ghost.mk 0 0 20 (37/100)).y = g0.y ∧
      (Ghost.mk 0 0 20 (37/100)).height = g0.height ∧
      (Ghost.mk 0 0 20 (37/100)).opacity = g0.opacity - 3/100 := by
  refine (C5_ghost_fade exBlinkC5 600).1 (Ghost.mk 0 0 20 (37/100)) ?_
  rw [blinkRender]
  simp only [blinkFadeStep]
  rw [blinkSpawnStep]
  norm_num [blinkSmooth, blinkLerp, exBlinkC5, initialEffectState, fadeGhosts]

/-- C6: the blink main-caret opacity equals the fixed non-zero value 0.6
whenever the idle time is at most 500ms; once idle beyond 500ms it is 0
exactly when (now mod 1060) > 530 and the fixed visible value 0.6
otherwise; and while idle the opacity depends only on the wall clock,
not on when the idle episode began. -/
theorem C6_blink_idle (s : BlinkState) (now : ℕ) :
    (blinkRender s now).2 = blinkMainOpacity now s.lastActivityTime ∧
    (now - s.lastActivityTime ≤ 500 →
      (blinkRender s now).2 = 3/5 ∧ (3/5 : ℚ) ≠ 0) ∧
    (500 < now - s.lastActivityTime →
      (blinkRender s now).2 = if 530 < now % 1060 then 0 else 3/5) ∧
    (∀ a1 a2 : ℕ, 500 < now - a1 → 500 < now - a2 →
      blinkMainOpacity now a1 = blinkMainOpacity now a2) := by
  refine ⟨rfl, fun h => ?_, fun h => ?_, fun a1 a2 h1 h2 => ?_⟩
  · constructor
    · show blinkMainOpacity now s.lastActivityTime = 3/5
      rw [blinkMainOpacity, if_neg (not_lt.mpr h)]
    · norm_num
  · show blinkMainOpacity now s.lastActivityTime = _
    rw [blinkMainOpacity, if_pos h]
    rfl
  · rw [blinkMainOpacity, blinkMainOpacity, if_pos h1, if_pos h2]

/-- C6, witness: the spec's scenario — idle since time 0, queried at
now = 600: 600 − 0 > 500 and 600 mod 1060 = 600 > 530, so the caret is
hidden (opacity 0). -/
theorem C6_blink_idle_witness : (blinkRender exBlinkC6 600).2 = 0 := by
  have h := (C6_blink_idle exBlinkC6 600).2.2.1 (by norm_num [exBlinkC6])
  simpa using h

/-- C7: lifecycle idempotence.  enable on a state whose overlay canvas
already exists is the identity; enable twice in a row equals enable once
and leaves exactly one canvas attached; disable of a disabled state is
the identity (so double-disable changes nothing). -/
theorem C7_lifecycle_idempotent (s : EffectState) (f1 f2 : ℕ)
    (h : s.canvas.isSome = true) :
    enable s f1 = s ∧
    enable (enable (disable s) f1) f2 = enable (disable s) f1 ∧
    (enable (enable (disable s) f1) f2).canvas.isSome = true ∧
    disable (disable s) = disable s := by
  refine ⟨?_, ?_, ?_, ?_⟩
  · rw [enable, if_pos h]
  · rw [enable]
    rw [if_pos (enable_canvas_isSome (disable s) f1)]
  · rw [enable, if_pos (enable_canvas_isSome (disable s) f1)]
    exact enable_canvas_isSome (disable s) f1
  · exact disable_fixed (disable s) (disable_animationFrameId s)
      (disable_canvas s) (disable_effectClass s)

/-- C7, witness at a concretely enabled state. -/
theorem C7_lifecycle_idempotent_witness :
    enable exEnabledC7 2 = exEnabledC7 ∧
    disable (disable exEnabledC7) = disable exEnabledC7 := by
  obtain ⟨h1, _, _, h4⟩ :=
    C7_lifecycle_idempotent exEnabledC7 2 3
      (by rw [exEnabledC7]; exact enable_canvas_isSome _ _)
  exact ⟨h1, h4⟩

/-- C8: a write phase whose measure carries no caret coordinates leaves
target, caret height, current and the initialization flag unchanged
(the update is skipped, no failure path exists since the transition is a
total function), while focus state is still recorded and a sampled
rectangle, if any, is still applied to the canvas and resize flag. -/
theorem C8_missing_coords_skip (s : EffectState) (m : Measure)
    (dpr st sl : ℚ) (h : m.coords = none) :
    (writePhase s m dpr st sl).targetX = s.targetX ∧
    (writePhase s m dpr st sl).targetY = s.targetY ∧
    (writePhase s m dpr st sl).currentHeight = s.currentHeight ∧
    (writePhase s m dpr st sl).initialized = s.initialized ∧
    (writePhase s m dpr st sl).currentX = s.currentX ∧
    (writePhase s m dpr st sl).currentY = s.currentY ∧
    (writePhase s m dpr st sl).lastScrollTop = s.lastScrollTop ∧
    (writePhase s m dpr st sl).lastScrollLeft = s.lastScrollLeft ∧
    (writePhase s m dpr st sl).hasFocus = m.hasFocus ∧
    (m.rect = none →
      (writePhase s m dpr st sl).canvas = s.canvas ∧
      (writePhase s m dpr st sl).needsResize = s.needsResize) ∧
    (∀ r, m.rect = some r →
      (writePhase s m dpr st sl).canvas
        = resizeCanvasOpt s.canvas r.width r.height dpr ∧
      (writePhase s m dpr st sl).needsResize = false) := by
  rcases hr : m.rect with _ | r <;>
    simp [writePhase, h, hr]

/-- C8, witness: a focus-loss sample without coordinates against an
initialized state with target (5, 0) and height 9. -/
theorem C8_missing_coords_skip_witness :
    (writePhase { initialEffectState 0 0 with
        initialized := true, targetX := 5, currentHeight := 9 }
      exMeasureC8 2 7 9).targetX
      = ({ initialEffectState 0 0 with
            initialized := true, targetX := 5, currentHeight := 9 } : EffectState).targetX ∧
    (writePhase { initialEffectState 0 0 with
        initialized := true, targetX := 5, currentHeight := 9 }
      exMeasureC8 2 7 9).initialized
      = ({ initialEffectState 0 0 with
            initialized := true, targetX := 5, currentHeight := 9 } : EffectState).initialized ∧
    (writePhase { initialEffectState 0 0 with
        initialized := true, targetX := 5, currentHeight := 9 }
      exMeasureC8 2 7 9).hasFocus = exMeasureC8.hasFocus := by
  obtain ⟨h1, _, _, h4, _, _, _, _, h9, _⟩ :=
    C8_missing_coords_skip
      { initialEffectState 0 0 with
          initialized := true, targetX := 5, currentHeight := 9 }
      exMeasureC8 2 7 9 rfl
  exact ⟨h1, h4, h9⟩

/-- C9: resize is a no-op — backing store, CSS pixel styles and transform
all untouched — exactly when the device-pixel-ratio-scaled floored
dimensions (clamped to at least 1) already match the backing store;
otherwise both backing dimensions are at least 1, the CSS styles take the
rectangle's dimensions and the transform becomes the uniform scale dpr. -/
theorem C9_resize (c : CanvasState) (rW rH dpr : ℚ) :
    ((c.width = max 1 ⌊rW * dpr⌋ ∧ c.height = max 1 ⌊rH * dpr⌋) →
      resizeCanvas c rW rH dpr = c) ∧
    (¬ (c.width = max 1 ⌊rW * dpr⌋ ∧ c.height = max 1 ⌊rH * dpr⌋) →
      1 ≤ (resizeCanvas c rW rH dpr).width ∧
      1 ≤ (resizeCanvas c rW rH dpr).height ∧
      (resizeCanvas c rW rH dpr).styleWidth = some rW ∧
      (resizeCanvas c rW rH dpr).styleHeight = some rH ∧
      (resizeCanvas c rW rH dpr).transform = dpr) := by
  constructor
  · intro h
    rw [resizeCanvas, if_pos h]
  · intro h
    rw [resizeCanvas, if_neg h]
    exact ⟨le_max_left 1 _, le_max_left 1 _, rfl, rfl, rfl⟩

/-- C9, witness: the 300×150 default canvas with a 100×50 rectangle at
dpr = 2 is resized (to 200×100); resizing the result again with the same
rectangle is a complete no-op. -/
theorem C9_resize_witness :
    1 ≤ (resizeCanvas newCanvas 100 50 2).width ∧
    (resizeCanvas newCanvas 100 50 2).transform = 2 ∧
    resizeCanvas (resizeCanvas newCanvas 100 50 2) 100 50 2
      = resizeCanvas newCanvas 100 50 2 := by
  obtain ⟨h1, _, _, _, h5⟩ :=
    (C9_resize newCanvas 100 50 2).2 (by norm_num [newCanvas])
  refine ⟨h1, h5, ?_⟩
  exact (C9_resize (resizeCanvas newCanvas 100 50 2) 100 50 2).1
    (by norm_num [resizeCanvas, newCanvas])

/-- C10: a scroll event arriving before the first successful sample is a
complete no-op in both effect variants — current, target, the trail or
ghost buffers and the recorded scroll baseline all stay exactly as they
were — and the pre-initialization scroll history is irrelevant because
the first successful sample overwrites the baseline with the host's
then-current offsets. -/
theorem C10_scroll_before_init (s : CometState) (b : BlinkState)
    (m : Measure) (c : Coords) (dpr st sl : ℚ)
    (hs : s.base.initialized = false) (hb : b.base.initialized = false)
    (hc : m.coords = some c) :
    cometOnScroll s st sl = s ∧
    blinkOnScroll b st sl = b ∧
    (writePhase s.base m dpr st sl).lastScrollTop = st ∧
    (writePhase s.base m dpr st sl).lastScrollLeft = sl := by
  refine ⟨?_, ?_, ?_, ?_⟩
  · rw [cometOnScroll]
    simp [hs]
  · rw [blinkOnScroll]
    simp [hb]
  · rcases hr : m.rect with _ | r <;> simp [writePhase, hc, hr, hs]
  · rcases hr : m.rect with _ | r <;> simp [writePhase, hc, hr, hs]

/-- C10, witness: uninitialized states that accumulated scroll baseline
(40, 30), hit by a scroll to (10, 20), stay exactly as they were; the
first successful sample then records the offsets live at write time. -/
theorem C10_scroll_before_init_witness :
    cometOnScroll exCometC10 10 20 = exCometC10 ∧
    blinkOnScroll exBlinkC10 10 20 = exBlinkC10 ∧
    (writePhase exCometC10.base exMeasureC3 2 7 9).lastScrollTop = 7 := by
  obtain ⟨h1, h2, h3, _⟩ :=
    C10_scroll_before_init exCometC10 exBlinkC10 exMeasureC3
      { x := 100, y := 50, height := 20 } 2 7 9 rfl rfl rfl
  exact ⟨h1, h2, h3⟩

end AnimatedCursor
